import Mathlib

set_option autoImplicit false

/-!
Verification development for the satchecker ephemeris API core.

Julian dates and timestamps are embedded as exact rationals (`ℚ`); Python
optional values (`None` or a value) are embedded as `Option`; fallible code
is embedded with `Except`.  Functions that live in `src/api/core/routes.py`
are translated from that source.  Functions of this repository that the
routes call but whose source files are not included (`core/utils.py`,
`core/database/tle_access.py`, `core/database/satellite_access.py`) are
modelled from the specification, as marked in their doc comments.
-/

namespace SatChecker

/-- Modelled from the spec: the closed error taxonomy of §7
(`InvalidRangeError`, `InvalidIdentifierError`, `NoElementSetFoundError`,
`MalformedElementSetError` carrying a human-readable reason,
`PropagationError`). -/
inductive CoreError where
  | invalidRange
  | invalidIdentifier
  | noElementSetFound
  | malformedElementSet (reason : String)
  | propagationError
  deriving DecidableEq, Repr

/-- Modelled from the spec: the Time Grid Generator `jd_arange`
(`core/utils.py`, not included under `src/`).  §4.1: given `start`, `stop`,
`step` Julian dates with `step` strictly positive, produce the ordered
sequence `start, start+step, start+2*step, …` truncated to the last value
`≤ stop`; fails with `InvalidRangeError` when `step <= 0` or `stop < start`. -/
def jd_arange (start stop step : ℚ) : Except CoreError (List ℚ) :=
  if step ≤ 0 ∨ stop < start then .error .invalidRange
  else
    .ok ((List.range (((stop - start) / step).floor.toNat + 1)).map
      fun i : ℕ => start + (i : ℚ) * step)

/-- A catalogued satellite (`Satellite` in `core/database/models.py`);
only the fields the routes consume are embedded.  `sat_number` is a string
column in the model. -/
structure Satellite where
  sat_number : String
  sat_name : String
  deriving DecidableEq, Repr

/-- A stored element-set row (`TLE` in `core/database/models.py`); epochs and
collection timestamps are embedded as rational time coordinates. -/
structure TleRecord where
  tle_line1 : String
  tle_line2 : String
  date_collected : ℚ
  epoch : ℚ
  is_supplemental : Bool
  data_source : String
  deriving DecidableEq, Repr

/-- Python `str.upper` restricted to the basic latin range, written as a
per-character map so the kernel can evaluate it. -/
def upcase (s : String) : String :=
  String.mk (s.toList.map Char.toUpper)

/-- Candidate filter on the identified object (§4.2 step 1: exact catalog
match, or case-normalized name match). -/
def matchesId (idCatalog : Bool) (ident : String) (c : TleRecord × Satellite) : Bool :=
  if idCatalog then c.2.sat_number == ident else upcase c.2.sat_name == upcase ident

/-- Candidate filter on the data-source preference (§4.2 step 2; `none`
means no preference, keep everything). -/
def matchesSource (pref : Option String) (c : TleRecord × Satellite) : Bool :=
  match pref with
  | none => true
  | some s => c.1.data_source == s

/-- §4.2 steps 3–4: `x` beats the current best when its epoch is strictly
nearer to the target time, or at an exact tie when `x` is non-supplemental
and the current best is supplemental. -/
def isBetter (target : ℚ) (x best : TleRecord × Satellite) : Bool :=
  if |x.1.epoch - target| < |best.1.epoch - target| then true
  else if |x.1.epoch - target| = |best.1.epoch - target| then
    !x.1.is_supplemental && best.1.is_supplemental
  else false

/-- Modelled from the spec: the Element-Set Resolver `get_tle`
(`core/database/tle_access.py`, not included under `src/`).  §4.2: filter the
candidate pool to the identified object, then to the preferred source, then
pick the candidate whose epoch is nearest in absolute value to the target
time, preferring a non-supplemental record at an exact tie; fail with
`NoElementSetFoundError` when nothing remains. -/
def get_tle (candidates : List (TleRecord × Satellite)) (ident : String)
    (idCatalog : Bool) (pref : Option String) (target : ℚ) :
    Except CoreError (TleRecord × Satellite) :=
  match (candidates.filter (matchesId idCatalog ident)).filter (matchesSource pref) with
  | [] => .error .noElementSetFound
  | c :: cs => .ok (cs.foldl (fun best x => if isBetter target x best then x else best) c)

/-- §4.3 checksum character values: digits count as themselves, `-` counts
as 1, everything else counts as 0. -/
def tleCharVal (c : Char) : ℕ :=
  if c.isDigit then c.toNat - 48 else if c = '-' then 1 else 0

/-- §4.3 line checksum: mod-10 sum of the character values. -/
def tleChecksum (cs : List Char) : ℕ :=
  (cs.map tleCharVal).sum % 10

/-- Numeric value of a digit character. -/
def digitVal (c : Char) : ℕ := c.toNat - 48

/-- One fixed-column element-set line is well-formed when it has exactly 69
columns, begins with the expected line number, and its final column is a
digit equal to the mod-10 checksum of the preceding columns (§4.3). -/
def lineOk (first : Char) (cs : List Char) : Bool :=
  (cs.length == 69) &&
  (cs.head? == some first) &&
  (match cs.getLast? with
   | some d => d.isDigit && (digitVal d == tleChecksum cs.dropLast)
   | none => false)

/-- Columns 3–7 of a line: the catalog number field (§4.3). -/
def catalogField (cs : List Char) : List Char :=
  (cs.drop 2).take 5

/-- The structured record produced by the parser; user-supplied two-line text
carries no collection timestamp and no name. -/
structure ParsedTle where
  name : String
  tle_line1 : String
  tle_line2 : String
  catalog : String
  date_collected : Option ℚ
  deriving DecidableEq, Repr

/-- Modelled from the spec: the Element-Set Parser `parse_tle`
(`core/database/tle_access.py`, not included under `src/`).  §4.3: the text
is two newline-joined fixed-column lines, passed here already split; line 1
begins with `1`, line 2 with `2`, both carry the same catalog number, and
each line ends in a valid checksum digit.  Any violation fails with
`MalformedElementSetError`. -/
def parse_tle (line1 line2 : String) : Except CoreError ParsedTle :=
  let c1 := line1.toList
  let c2 := line2.toList
  if lineOk '1' c1 && lineOk '2' c2 && (catalogField c1 == catalogField c2) then
    .ok { name := "", tle_line1 := line1, tle_line2 := line2,
          catalog := String.mk (catalogField c1), date_collected := none }
  else
    .error (.malformedElementSet "Incorrect TLE format")

/-- Replace the final column of a line (the checksum digit of a well-formed
line) with the character `c`. -/
def mutateChecksum (s : String) (c : Char) : String :=
  String.mk (s.toList.dropLast ++ [c])

/-- The per-sample output fields of the Frame & Geometry Transformer, as
listed in the §6 output schema. -/
structure SampleOut where
  altitude_deg : ℚ
  azimuth_deg : ℚ
  right_ascension_deg : ℚ
  declination_deg : ℚ
  dracosdec_deg_per_sec : ℚ
  ddec_deg_per_sec : ℚ
  range_km : ℚ
  range_rate_km_per_sec : ℚ
  phase_angle_deg : ℚ
  illuminated : Bool
  observer_gcrs_km : ℚ × ℚ × ℚ
  satellite_gcrs_km : ℚ × ℚ × ℚ
  deriving DecidableEq, Repr

/-- The Propagator + Transformer stage (§4.4–§4.5): from the two element
lines and one time sample, either a per-sample output or a physics-domain
failure.  Its numeric body (SGP4 and the frame transforms) is external
library code, so the routes are stated for an arbitrary engine of this
type. -/
abbrev Engine := String → String → ℚ → Except CoreError SampleOut

/-- Observer geodetic position, supplied per request (§3 ObserverFrame). -/
structure ObserverFrame where
  latitude : ℚ
  longitude : ℚ
  elevation : ℚ
  deriving DecidableEq, Repr

/-- One assembled output record per time sample (§6 output schema plus the
merged object metadata). -/
structure EphemerisRecord where
  name : String
  catalog_id : String
  data_source : Option String
  tle_date : Option ℚ
  julian_date : ℚ
  out : SampleOut
  deriving DecidableEq, Repr

/-- Modelled from the spec: the Result Assembler
`propagate_and_create_json_results` (`core/database/tle_access.py`, not
included under `src/`).  §4.6: run the engine once per time sample and merge
the object metadata with each sample output into one record, preserving
time-grid order; a per-sample failure aborts the whole batch with the
originating error.  The §4.6 contract describes no per-sample filtering, so
the altitude-bound arguments do not affect which samples appear. -/
def propagate_and_create_json_results (engine : Engine) (location : ObserverFrame)
    (jd : List ℚ) (tle_line1 tle_line2 : String) (date_collected : Option ℚ)
    (name : String) (min_altitude max_altitude : Option ℚ) (catalog : String)
    (data_source : Option String) : Except CoreError (List EphemerisRecord) :=
  match jd with
  | [] => .ok []
  | t :: ts =>
    match engine tle_line1 tle_line2 t with
    | .error e => .error e
    | .ok s =>
      match propagate_and_create_json_results engine location ts tle_line1 tle_line2
          date_collected name min_altitude max_altitude catalog data_source with
      | .error e => .error e
      | .ok rest =>
        .ok ({ name := name, catalog_id := catalog, data_source := data_source,
               tle_date := date_collected, julian_date := t, out := s } :: rest)

/-- Outcome of one route invocation: an HTTP 400 abort, a propagated core
error, or the assembled record list. -/
inductive RouteOutcome (α : Type) where
  | http400
  | err (e : CoreError)
  | ok (a : α)
  deriving DecidableEq, Repr

/-- Parameters of the single-instant ephemeris routes after extraction and
validation (`routes.py`); `ident` is the `name` or `catalog` parameter. -/
structure SingleParams where
  ident : String
  latitude : ℚ
  longitude : ℚ
  elevation : ℚ
  julian_date : ℚ
  min_altitude : Option ℚ
  max_altitude : Option ℚ
  data_source : Option String
  deriving DecidableEq, Repr

/-- Parameters of the `name-jdstep` and `catalog-number-jdstep` routes after
extraction and validation (`routes.py`). -/
structure JdstepParams where
  ident : String
  latitude : ℚ
  longitude : ℚ
  elevation : ℚ
  startjd : ℚ
  stopjd : ℚ
  stepjd : Option ℚ
  min_altitude : Option ℚ
  max_altitude : Option ℚ
  data_source : Option String
  deriving DecidableEq, Repr

/-- `routes.py`: `jds = 0.00138889 if parameters["stepjd"] is None else
float(parameters["stepjd"])` — the step actually used, defaulting to 2
minutes in Julian-date units when the parameter is omitted. -/
def effectiveStep : Option ℚ → ℚ
  | none => 0.00138889
  | some s => s

/-- `get_ephemeris_by_name` (`routes.py` lines 86–158): resolve the element
set for the named object at the requested instant, then assemble results
over the one-element time grid `[jd]`. -/
def get_ephemeris_by_name (candidates : List (TleRecord × Satellite)) (engine : Engine)
    (p : SingleParams) : RouteOutcome (List EphemerisRecord) :=
  match get_tle candidates p.ident false p.data_source p.julian_date with
  | .error e => .err e
  | .ok tle =>
    match propagate_and_create_json_results engine
        ⟨p.latitude, p.longitude, p.elevation⟩ [p.julian_date]
        tle.1.tle_line1 tle.1.tle_line2 (some tle.1.date_collected) p.ident
        p.min_altitude p.max_altitude tle.2.sat_number p.data_source with
    | .error e => .err e
    | .ok recs => .ok recs

/-- `get_ephemeris_by_catalog_number` (`routes.py` lines 256–329): like the
name route but resolving by catalog number and reporting the stored
satellite name. -/
def get_ephemeris_by_catalog_number (candidates : List (TleRecord × Satellite))
    (engine : Engine) (p : SingleParams) : RouteOutcome (List EphemerisRecord) :=
  match get_tle candidates p.ident true p.data_source p.julian_date with
  | .error e => .err e
  | .ok tle =>
    match propagate_and_create_json_results engine
        ⟨p.latitude, p.longitude, p.elevation⟩ [p.julian_date]
        tle.1.tle_line1 tle.1.tle_line2 (some tle.1.date_collected) tle.2.sat_name
        p.min_altitude p.max_altitude tle.2.sat_number p.data_source with
    | .error e => .err e
    | .ok recs => .ok recs

/-- `get_ephemeris_by_name_jdstep` (`routes.py` lines 165–249): expand the
time grid with `jd_arange`, abort with HTTP 400 when it holds more than
1000 samples, and only then resolve the element set and assemble results.
The element-set lookup targets the first grid point, which equals
`startjd`. -/
def get_ephemeris_by_name_jdstep (candidates : List (TleRecord × Satellite))
    (engine : Engine) (p : JdstepParams) : RouteOutcome (List EphemerisRecord) :=
  match jd_arange p.startjd p.stopjd (effectiveStep p.stepjd) with
  | .error e => .err e
  | .ok jd =>
    if 1000 < jd.length then .http400
    else
      match get_tle candidates p.ident false p.data_source (jd.headD p.startjd) with
      | .error e => .err e
      | .ok tle =>
        match propagate_and_create_json_results engine
            ⟨p.latitude, p.longitude, p.elevation⟩ jd
            tle.1.tle_line1 tle.1.tle_line2 (some tle.1.date_collected) p.ident
            p.min_altitude p.max_altitude tle.2.sat_number p.data_source with
        | .error e => .err e
        | .ok recs => .ok recs

/-- `get_ephemeris_by_catalog_number_jdstep` (`routes.py` lines 336–421):
like the name batch route but resolving by catalog number. -/
def get_ephemeris_by_catalog_number_jdstep (candidates : List (TleRecord × Satellite))
    (engine : Engine) (p : JdstepParams) : RouteOutcome (List EphemerisRecord) :=
  match jd_arange p.startjd p.stopjd (effectiveStep p.stepjd) with
  | .error e => .err e
  | .ok jd =>
    if 1000 < jd.length then .http400
    else
      match get_tle candidates p.ident true p.data_source (jd.headD p.startjd) with
      | .error e => .err e
      | .ok tle =>
        match propagate_and_create_json_results engine
            ⟨p.latitude, p.longitude, p.elevation⟩ jd
            tle.1.tle_line1 tle.1.tle_line2 (some tle.1.date_collected) tle.2.sat_name
            p.min_altitude p.max_altitude tle.2.sat_number p.data_source with
        | .error e => .err e
        | .ok recs => .ok recs

/-- Parameters of the `tle` route after extraction and validation
(`routes.py`); the raw element text is passed as its two lines. -/
structure TleParams where
  tle_line1 : String
  tle_line2 : String
  latitude : ℚ
  longitude : ℚ
  elevation : ℚ
  julian_date : ℚ
  min_altitude : Option ℚ
  max_altitude : Option ℚ
  deriving DecidableEq, Repr

/-- Parameters of the `tle-jdstep` route after extraction and validation
(`routes.py`). -/
structure TleJdstepParams where
  tle_line1 : String
  tle_line2 : String
  latitude : ℚ
  longitude : ℚ
  elevation : ℚ
  startjd : ℚ
  stopjd : ℚ
  stepjd : Option ℚ
  min_altitude : Option ℚ
  max_altitude : Option ℚ
  deriving DecidableEq, Repr

/-- `get_ephemeris_by_tle` (`routes.py` lines 428–495): parse the
user-supplied element text, then assemble results over the one-element time
grid, with data source fixed to the literal `"user"`. -/
def get_ephemeris_by_tle (engine : Engine) (p : TleParams) :
    RouteOutcome (List EphemerisRecord) :=
  match parse_tle p.tle_line1 p.tle_line2 with
  | .error e => .err e
  | .ok tle =>
    match propagate_and_create_json_results engine
        ⟨p.latitude, p.longitude, p.elevation⟩ [p.julian_date]
        tle.tle_line1 tle.tle_line2 tle.date_collected tle.name
        p.min_altitude p.max_altitude tle.catalog (some "user") with
    | .error e => .err e
    | .ok recs => .ok recs

/-- `get_ephemeris_by_tle_jdstep` (`routes.py` lines 502–581): expand the
time grid, abort with HTTP 400 when it holds more than 1000 samples, then
parse the user-supplied element text and assemble results, with data source
fixed to the literal `"user"`. -/
def get_ephemeris_by_tle_jdstep (engine : Engine) (p : TleJdstepParams) :
    RouteOutcome (List EphemerisRecord) :=
  match jd_arange p.startjd p.stopjd (effectiveStep p.stepjd) with
  | .error e => .err e
  | .ok jd =>
    if 1000 < jd.length then .http400
    else
      match parse_tle p.tle_line1 p.tle_line2 with
      | .error e => .err e
      | .ok tle =>
        match propagate_and_create_json_results engine
            ⟨p.latitude, p.longitude, p.elevation⟩ jd
            tle.tle_line1 tle.tle_line2 tle.date_collected tle.name
            p.min_altitude p.max_altitude tle.catalog (some "user") with
        | .error e => .err e
        | .ok recs => .ok recs

/-- Python exceptions relevant to the lookup routes: `AttributeError` (from a
method call on `None`), `sqlalchemy.exc.DataError`, and any other
exception. -/
inductive PyExc where
  | attributeError
  | dataError
  | otherExc
  deriving DecidableEq, Repr

/-- Result of one lookup-route invocation: an HTTP 400 or 500 abort, the
Python `None` value returned from inside an `except` block, an exception
escaping the handler, or a JSON payload. -/
inductive HandlerResult (α : Type) where
  | http400
  | http500 (msg : String)
  | pyNone
  | uncaught (e : PyExc)
  | payload (a : α)
  deriving DecidableEq, Repr

/-- Python `value.upper()` on a value that is either `None` or a string:
on `None` the attribute lookup raises `AttributeError`; on a string it
returns the upper-cased string. -/
def pyUpper : Option String → Except PyExc (Option String)
  | none => .error .attributeError
  | some s => .ok (some (upcase s))

/-- One JSON row of the norad-ids-from-name response. -/
structure IdRow where
  name : String
  norad_id : String
  date_added : ℚ
  deriving DecidableEq, Repr

/-- `get_norad_ids_from_name` (`routes.py` lines 588–623), translated
statement by statement: `satellite_name = request.args.get("name").upper()`
(which raises `AttributeError` when the parameter is absent), then the
`if satellite_name is None: abort(400)` check, then the `try` block that
queries the repository and builds the rows, whose `except` clause logs the
exception and returns `None`. -/
def get_norad_ids_from_name (nameArg : Option String)
    (repo : String → Except PyExc (List (String × ℚ))) : HandlerResult (List IdRow) :=
  match pyUpper nameArg with
  | .error e => .uncaught e
  | .ok satellite_name =>
    match satellite_name with
    | none => .http400
    | some sn =>
      match repo sn with
      | .ok rows => .payload (rows.map fun r => { name := sn, norad_id := r.1, date_added := r.2 })
      | .error _ => .pyNone

/-- One JSON row of the names-from-norad-id response. -/
structure NameRow where
  name : String
  norad_id : String
  date_added : ℚ
  deriving DecidableEq, Repr

/-- `get_names_from_norad_id` (`routes.py` lines 630–668): abort 400 when the
`id` parameter is absent, then a `try` block that queries the repository and
builds the rows, whose `except` clause logs the exception and returns
`None`. -/
def get_names_from_norad_id (idArg : Option String)
    (repo : String → Except PyExc (List (String × ℚ))) : HandlerResult (List NameRow) :=
  match idArg with
  | none => .http400
  | some satellite_id =>
    match repo satellite_id with
    | .ok rows =>
      .payload (rows.map fun r => { name := r.1, norad_id := satellite_id, date_added := r.2 })
    | .error _ => .pyNone

/-- One stored row returned by the TLE-data repository query. -/
structure TleDataRow where
  sat_name : String
  sat_number : String
  tle_line1 : String
  tle_line2 : String
  epoch : ℚ
  date_collected : ℚ
  deriving DecidableEq, Repr

/-- `get_tle_data` (`routes.py` lines 675–724): abort 400 when the `id`
parameter is absent or `id_type` is neither `"catalog"` nor `"name"`, then a
`try` block that queries the repository over the optional date range, whose
`except` clause aborts with 500 for a `DataError` and otherwise logs the
exception and returns `None`. -/
def get_tle_data (idArg idType : Option String) (startDate endDate : Option ℚ)
    (repo : String → String → Option ℚ → Option ℚ → Except PyExc (List TleDataRow)) :
    HandlerResult (List TleDataRow) :=
  match idArg with
  | none => .http400
  | some satellite_id =>
    if idType != some "catalog" && idType != some "name" then .http400
    else
      match repo satellite_id (idType.getD "") startDate endDate with
      | .ok rows => .payload rows
      | .error .dataError => .http500 "No TLE found"
      | .error _ => .pyNone

/-! ## Concrete fixtures used to instantiate theorems -/

/-- An all-zero transformer output, used to instantiate route theorems. -/
def sampleZero : SampleOut :=
  ⟨0, 0, 0, 0, 0, 0, 0, 0, 0, false, (0, 0, 0), (0, 0, 0)⟩

/-- An engine that succeeds on every sample. -/
def engineOk : Engine := fun _ _ _ => .ok sampleZero

/-- An engine that fails on every sample with a physics-domain error. -/
def engineFail : Engine := fun _ _ _ => .error .propagationError

/-- A well-formed first element line (ISS, from the integration tests). -/
def issLine1 : String := "1 25544U 98067A   23248.54842295  .00012769  00000+0  22936-3 0  9997"

/-- A well-formed second element line (ISS, from the integration tests). -/
def issLine2 : String := "2 25544  51.6416 290.4299 0005730  30.7454 132.9751 15.50238117414255"

/-- A stored element-set fixture. -/
def tleA : TleRecord := ⟨issLine1, issLine2, 100, 100, false, "spacetrack"⟩

/-- A satellite fixture. -/
def satA : Satellite := ⟨"25544", "ISS (ZARYA)"⟩

/-- Single-instant request fixture. -/
def pSingle : SingleParams := ⟨"ISS (ZARYA)", 32, -110, 150, 2460193, none, none, none⟩

/-- The record produced for `pSingle` by `engineOk` over the fixture data. -/
def recSingle : EphemerisRecord :=
  ⟨"ISS (ZARYA)", "25544", none, some 100, 2460193, sampleZero⟩

/-- The record produced by parsing the ISS fixture lines. -/
def issParsed : ParsedTle := ⟨"", issLine1, issLine2, "25544", none⟩

/-- A raw-element single-instant request fixture carrying the ISS lines. -/
def pTle : TleParams := ⟨issLine1, issLine2, 32, -110, 150, 2460193, none, none⟩

/-- A raw-element batch request fixture with the degenerate grid `[5]`. -/
def qTle : TleJdstepParams := ⟨issLine1, issLine2, 32, -110, 150, 5, 5, some 1, none, none⟩

/-- The record produced for `pTle` by `engineOk`. -/
def recUser : EphemerisRecord := ⟨"", "25544", some "user", none, 2460193, sampleZero⟩

/-- The record produced for `qTle` by `engineOk`. -/
def recUser2 : EphemerisRecord := ⟨"", "25544", some "user", none, 5, sampleZero⟩

/-- A supplemental element-set fixture with epoch 8. -/
def tleSupp : TleRecord := ⟨"L1", "L2", 50, 8, true, "celestrak"⟩

/-- A primary (non-supplemental) element-set fixture with epoch 12. -/
def tlePrim : TleRecord := ⟨"L1b", "L2b", 60, 12, false, "celestrak"⟩

/-- A satellite fixture with catalog number 111. -/
def satB : Satellite := ⟨"111", "SAT B"⟩

/-- The 1001-sample grid generated for `pBig`. -/
def gridBig : List ℚ := (List.range 1001).map fun i : ℕ => (0 : ℚ) + (i : ℚ) * 1

/-- The 1000-sample grid generated for `pCap`. -/
def gridCap : List ℚ := (List.range 1000).map fun i : ℕ => (0 : ℚ) + (i : ℚ) * 1

/-- Batch request whose grid holds 1001 samples. -/
def pBig : JdstepParams := ⟨"ISS (ZARYA)", 32, -110, 150, 0, 1000, some 1, none, none, none⟩

/-- Batch request whose grid holds exactly 1000 samples. -/
def pCap : JdstepParams := ⟨"ISS (ZARYA)", 32, -110, 150, 0, 999, some 1, none, none, none⟩

/-! ## Helper lemmas -/

theorem ratFloor_eq_intFloor (q : ℚ) : q.floor = ⌊q⌋ := by
  rw [Rat.floor_def, Rat.floor_def']

/-- What a successful assembler run guarantees about its output: the records
enumerate exactly the grid times in order, and each record carries the merged
metadata unchanged. -/
theorem propagate_ok_spec (engine : Engine) (location : ObserverFrame) (jd : List ℚ)
    (l1 l2 : String) (dc : Option ℚ) (nm : String) (minA maxA : Option ℚ)
    (cat : String) (ds : Option String) (recs : List EphemerisRecord)
    (h : propagate_and_create_json_results engine location jd l1 l2 dc nm minA maxA cat ds
        = .ok recs) :
    recs.map (fun r => r.julian_date) = jd ∧
    ∀ r ∈ recs, r.data_source = ds ∧ r.name = nm ∧ r.catalog_id = cat ∧ r.tle_date = dc := by
  induction jd generalizing recs with
  | nil =>
    rw [propagate_and_create_json_results] at h
    cases h
    simp
  | cons t ts ih =>
    rw [propagate_and_create_json_results] at h
    cases he : engine l1 l2 t with
    | error e => rw [he] at h; cases h
    | ok s =>
      rw [he] at h
      cases hr : propagate_and_create_json_results engine location ts l1 l2 dc nm minA maxA
          cat ds with
      | error e => rw [hr] at h; cases h
      | ok rest =>
        rw [hr] at h
        cases h
        obtain ⟨h1, h2⟩ := ih rest hr
        refine ⟨by simp [h1], ?_⟩
        intro r hmem
        rw [List.mem_cons] at hmem
        rcases hmem with hmem | hmem
        · simp [hmem]
        · exact h2 r hmem

/-- A successful assembler run implies every grid sample was propagated
successfully: no partial batch can be returned. -/
theorem propagate_ok_no_partial (engine : Engine) (location : ObserverFrame) (jd : List ℚ)
    (l1 l2 : String) (dc : Option ℚ) (nm : String) (minA maxA : Option ℚ)
    (cat : String) (ds : Option String) (recs : List EphemerisRecord)
    (h : propagate_and_create_json_results engine location jd l1 l2 dc nm minA maxA cat ds
        = .ok recs) :
    ∀ t ∈ jd, ∃ s, engine l1 l2 t = .ok s := by
  induction jd generalizing recs with
  | nil => intro t ht; cases ht
  | cons u ts ih =>
    rw [propagate_and_create_json_results] at h
    cases he : engine l1 l2 u with
    | error e => rw [he] at h; cases h
    | ok s =>
      rw [he] at h
      cases hr : propagate_and_create_json_results engine location ts l1 l2 dc nm minA maxA
          cat ds with
      | error e => rw [hr] at h; cases h
      | ok rest =>
        intro t ht
        rw [List.mem_cons] at ht
        rcases ht with ht | ht
        · exact ⟨s, ht ▸ he⟩
        · exact ih rest hr t ht

/-- Two digit characters with the same numeric value are the same
character. -/
theorem digit_char_eq_of_val_eq (c d : Char) (hc : c.isDigit = true) (hd : d.isDigit = true)
    (h : digitVal c = digitVal d) : c = d := by
  simp only [Char.isDigit, Bool.and_eq_true, decide_eq_true_eq] at hc hd
  have h1 : (48 : UInt32).toNat ≤ c.val.toNat := hc.1
  have h2 : (48 : UInt32).toNat ≤ d.val.toNat := hd.1
  have h48 : (48 : UInt32).toNat = 48 := rfl
  have hn : c.toNat = d.toNat := by
    simp only [digitVal, Char.toNat] at h ⊢
    omega
  exact Char.eq_of_val_eq (UInt32.ext hn)

/-- Replacing the final (checksum) column of a well-formed line with any
other character makes the line validation fail. -/
theorem lineOk_mutate_false (cs : List Char) (first : Char) (d c : Char)
    (hlast : cs.getLast? = some d) (hok : lineOk first cs = true) (hne : c ≠ d) :
    lineOk first (cs.dropLast ++ [c]) = false := by
  rw [lineOk, Bool.and_eq_true, Bool.and_eq_true] at hok
  obtain ⟨⟨hlen, hhead⟩, hsum⟩ := hok
  rw [hlast, Bool.and_eq_true] at hsum
  obtain ⟨hdig, hval⟩ := hsum
  have hd : digitVal d = tleChecksum cs.dropLast := by
    exact beq_iff_eq.mp hval
  have hlast2 : (cs.dropLast ++ [c]).getLast? = some c := List.getLast?_concat _
  have hdrop : (cs.dropLast ++ [c]).dropLast = cs.dropLast := List.dropLast_concat
  rw [lineOk, hlast2, hdrop]
  cases hc : c.isDigit with
  | false => simp [hc]
  | true =>
    have hbc : (digitVal c == tleChecksum cs.dropLast) = false := by
      cases hbc : digitVal c == tleChecksum cs.dropLast with
      | false => rfl
      | true =>
        have hcv : digitVal c = tleChecksum cs.dropLast := beq_iff_eq.mp hbc
        have : c = d := digit_char_eq_of_val_eq c d hc hdig (by rw [hcv, hd])
        exact absurd this hne
    simp [hbc]

/-! ## Claims -/

/-- C7: in every batch ephemeris route, when the `stepjd` parameter is
omitted the time grid is generated with step exactly `0.00138889` Julian-date
units, and the route behaves exactly as if `stepjd = 0.00138889` had been
supplied, all other request parameters unchanged. -/
theorem default_step_is_two_minutes
    (candidates : List (TleRecord × Satellite)) (engine : Engine)
    (p : JdstepParams) (q : TleJdstepParams) :
    effectiveStep none = 0.00138889 ∧
    get_ephemeris_by_name_jdstep candidates engine {p with stepjd := none} =
      get_ephemeris_by_name_jdstep candidates engine {p with stepjd := some 0.00138889} ∧
    get_ephemeris_by_catalog_number_jdstep candidates engine {p with stepjd := none} =
      get_ephemeris_by_catalog_number_jdstep candidates engine
        {p with stepjd := some 0.00138889} ∧
    get_ephemeris_by_tle_jdstep engine {q with stepjd := none} =
      get_ephemeris_by_tle_jdstep engine {q with stepjd := some 0.00138889} :=
  ⟨rfl, rfl, rfl, rfl⟩

/-- C9: when the norad-ids-from-name route receives no `name` parameter,
`None.upper()` raises `AttributeError` before the missing-parameter check
runs, and the `abort(400)` branch guarded by `satellite_name is None` is
unreachable for every input. -/
theorem norad_ids_missing_name_raises_before_400 :
    (∀ repo, get_norad_ids_from_name none repo = .uncaught .attributeError) ∧
    (∀ nameArg repo, get_norad_ids_from_name nameArg repo ≠ .http400) := by
  constructor
  · intro repo
    rfl
  · intro nameArg repo
    cases nameArg with
    | none =>
      simp [get_norad_ids_from_name, pyUpper]
    | some n =>
      rw [get_norad_ids_from_name]
      cases h : pyUpper (some n) with
      | error e => simp
      | ok sn =>
        rw [pyUpper] at h
        cases h
        cases hr : repo (upcase n) <;> simp [hr]

/-- Witness for C9 at a concrete empty repository. -/
theorem norad_ids_missing_name_raises_before_400_witness :
    get_norad_ids_from_name none (fun _ => .ok []) = .uncaught .attributeError ∧
    get_norad_ids_from_name (some "iss") (fun _ => .ok []) ≠ .http400 :=
  ⟨norad_ids_missing_name_raises_before_400.1 (fun _ => .ok []),
    norad_ids_missing_name_raises_before_400.2 (some "iss") (fun _ => .ok [])⟩

/-- C6: the Time Grid Generator fails with `InvalidRangeError` whenever
`step ≤ 0` or `stop < start`, and every batch route invoked with such bounds
propagates that error and returns no propagation result. -/
theorem invalid_range_no_grid_no_result (start stop step : ℚ)
    (h : step ≤ 0 ∨ stop < start) :
    jd_arange start stop step = .error .invalidRange ∧
    (∀ candidates engine ident lat lon elev minA maxA ds,
      get_ephemeris_by_name_jdstep candidates engine
        ⟨ident, lat, lon, elev, start, stop, some step, minA, maxA, ds⟩
        = .err .invalidRange) ∧
    (∀ engine l1 l2 lat lon elev minA maxA,
      get_ephemeris_by_tle_jdstep engine
        ⟨l1, l2, lat, lon, elev, start, stop, some step, minA, maxA⟩
        = .err .invalidRange) := by
  have hj : jd_arange start stop step = .error .invalidRange := by
    rw [jd_arange, if_pos h]
  refine ⟨hj, ?_, ?_⟩
  · intro candidates engine ident lat lon elev minA maxA ds
    simp [get_ephemeris_by_name_jdstep, effectiveStep, hj]
  · intro engine l1 l2 lat lon elev minA maxA
    simp [get_ephemeris_by_tle_jdstep, effectiveStep, hj]

/-- Witness for C6 at a concrete invalid range (`step = 0`). -/
theorem invalid_range_no_grid_no_result_witness :
    ((0 : ℚ) ≤ 0 ∨ (1 : ℚ) < 0) ∧
    jd_arange 0 1 0 = .error .invalidRange ∧
    get_ephemeris_by_name_jdstep [] engineOk
      ⟨"ISS (ZARYA)", 32, -110, 150, 0, 1, some 0, none, none, none⟩
      = .err .invalidRange ∧
    get_ephemeris_by_tle_jdstep engineOk
      ⟨issLine1, issLine2, 32, -110, 150, 0, 1, some 0, none, none⟩
      = .err .invalidRange := by
  have h : (0 : ℚ) ≤ 0 ∨ (1 : ℚ) < 0 := Or.inl le_rfl
  obtain ⟨h1, h2, h3⟩ := invalid_range_no_grid_no_result 0 1 0 h
  exact ⟨h, h1, h2 [] engineOk "ISS (ZARYA)" 32 (-110) 150 none none none,
    h3 engineOk issLine1 issLine2 32 (-110) 150 none none⟩

/-- C8: a start equal to stop yields the one-element grid `[start]`, and the
single-instant routes run over the one-element grid `[julian_date]`, so a
successful request yields exactly one record at that instant. -/
theorem single_instant_one_record :
    (∀ (s step : ℚ), 0 < step → jd_arange s s step = .ok [s]) ∧
    (∀ candidates engine (p : SingleParams) recs,
      get_ephemeris_by_name candidates engine p = .ok recs →
      recs.map (fun r => r.julian_date) = [p.julian_date]) ∧
    (∀ candidates engine (p : SingleParams) recs,
      get_ephemeris_by_catalog_number candidates engine p = .ok recs →
      recs.map (fun r => r.julian_date) = [p.julian_date]) := by
  refine ⟨?_, ?_, ?_⟩
  · intro s step h
    rw [jd_arange, if_neg (by push_neg; exact ⟨h, le_refl s⟩)]
    have h0 : ((s - s) / step).floor = 0 := by
      rw [sub_self, zero_div, ratFloor_eq_intFloor]
      exact Int.floor_zero
    have h1 : List.range ((0 : ℤ).toNat + 1) = [0] := rfl
    rw [h0, h1]
    simp
  · intro candidates engine p recs h
    rw [get_ephemeris_by_name] at h
    split at h
    · cases h
    · split at h
      · cases h
      · rename_i heq
        cases h
        exact (propagate_ok_spec _ _ _ _ _ _ _ _ _ _ _ _ heq).1
  · intro candidates engine p recs h
    rw [get_ephemeris_by_catalog_number] at h
    split at h
    · cases h
    · split at h
      · cases h
      · rename_i heq
        cases h
        exact (propagate_ok_spec _ _ _ _ _ _ _ _ _ _ _ _ heq).1

/-- Witness for C8 at a concrete degenerate range and a concrete successful
single-instant request. -/
theorem single_instant_one_record_witness :
    (0 : ℚ) < 1 ∧ jd_arange 5 5 1 = .ok [5] ∧
    get_ephemeris_by_name [(tleA, satA)] engineOk pSingle = .ok [recSingle] ∧
    [recSingle].map (fun r => r.julian_date) = [pSingle.julian_date] := by
  have hroute : get_ephemeris_by_name [(tleA, satA)] engineOk pSingle = .ok [recSingle] := by
    rfl
  exact ⟨one_pos, (single_instant_one_record.1 5 1 one_pos),
    hroute, (single_instant_one_record.2.1 _ _ _ _ hroute)⟩

/-- C1: whenever the generated time grid of a batch request holds more than
1000 samples, the route aborts with HTTP 400 — for every candidate pool and
every engine, so before any element-set lookup or propagation can contribute
to the outcome — while a grid of exactly 1000 samples is never rejected by
this check. -/
theorem batch_cap_1000 (candidates : List (TleRecord × Satellite)) (engine : Engine)
    (p : JdstepParams) (g : List ℚ)
    (hg : jd_arange p.startjd p.stopjd (effectiveStep p.stepjd) = .ok g) :
    (1000 < g.length →
      get_ephemeris_by_name_jdstep candidates engine p = .http400 ∧
      get_ephemeris_by_catalog_number_jdstep candidates engine p = .http400) ∧
    (g.length = 1000 →
      get_ephemeris_by_name_jdstep candidates engine p ≠ .http400 ∧
      get_ephemeris_by_catalog_number_jdstep candidates engine p ≠ .http400) := by
  constructor
  · intro hlen
    constructor
    · rw [get_ephemeris_by_name_jdstep, hg]
      simp [hlen]
    · rw [get_ephemeris_by_catalog_number_jdstep, hg]
      simp [hlen]
  · intro hlen
    have hn : ¬ (1000 < g.length) := by omega
    constructor
    · rw [get_ephemeris_by_name_jdstep, hg]
      dsimp only
      rw [if_neg hn]
      split
      · simp
      · split <;> simp
    · rw [get_ephemeris_by_catalog_number_jdstep, hg]
      dsimp only
      rw [if_neg hn]
      split
      · simp
      · split <;> simp

/-- Witness for C1 at concrete 1001-sample and 1000-sample grids. -/
theorem batch_cap_1000_witness :
    (jd_arange pBig.startjd pBig.stopjd (effectiveStep pBig.stepjd) = .ok gridBig ∧
      1000 < gridBig.length ∧
      get_ephemeris_by_name_jdstep [] engineOk pBig = .http400 ∧
      get_ephemeris_by_catalog_number_jdstep [] engineOk pBig = .http400) ∧
    (jd_arange pCap.startjd pCap.stopjd (effectiveStep pCap.stepjd) = .ok gridCap ∧
      gridCap.length = 1000 ∧
      get_ephemeris_by_name_jdstep [] engineOk pCap ≠ .http400 ∧
      get_ephemeris_by_catalog_number_jdstep [] engineOk pCap ≠ .http400) := by
  have hgB : jd_arange pBig.startjd pBig.stopjd (effectiveStep pBig.stepjd) = .ok gridBig := by
    show jd_arange 0 1000 1 = .ok gridBig
    rw [jd_arange, if_neg (by norm_num), ratFloor_eq_intFloor]
    have h : ⌊((1000 : ℚ) - 0) / 1⌋ = 1000 := by norm_num
    rw [h]
    rfl
  have hgC : jd_arange pCap.startjd pCap.stopjd (effectiveStep pCap.stepjd) = .ok gridCap := by
    show jd_arange 0 999 1 = .ok gridCap
    rw [jd_arange, if_neg (by norm_num), ratFloor_eq_intFloor]
    have h : ⌊((999 : ℚ) - 0) / 1⌋ = 999 := by norm_num
    rw [h]
    rfl
  have hlenB : 1000 < gridBig.length := by
    rw [gridBig]
    simp
  have hlenC : gridCap.length = 1000 := by
    rw [gridCap]
    simp
  obtain ⟨hB1, hB2⟩ := (batch_cap_1000 [] engineOk pBig gridBig hgB).1 hlenB
  obtain ⟨hC1, hC2⟩ := (batch_cap_1000 [] engineOk pCap gridCap hgC).2 hlenC
  exact ⟨⟨hgB, hlenB, hB1, hB2⟩, ⟨hgC, hlenC, hC1, hC2⟩⟩

/-- C2: for `step > 0` and `stop ≥ start` the Time Grid Generator returns
the arithmetic sequence `start, start + step, …`, of length
`⌊(stop - start)/step⌋ + 1`, with every element at most `stop`, the next
element beyond the last one exceeding `stop`, and consecutive elements
differing by exactly `step`. -/
theorem time_grid_spec (start stop step : ℚ) (hstep : 0 < step) (hle : start ≤ stop)
    (g : List ℚ) (hg : jd_arange start stop step = .ok g) :
    g.length = ⌊(stop - start) / step⌋.toNat + 1 ∧
    (∀ i (hi : i < g.length), g.get ⟨i, hi⟩ = start + i * step) ∧
    (∀ x ∈ g, x ≤ stop) ∧
    stop < start + g.length * step ∧
    (∀ i (hi : i + 1 < g.length),
      g.get ⟨i + 1, hi⟩ - g.get ⟨i, Nat.lt_of_succ_lt hi⟩ = step) := by
  rw [jd_arange, if_neg (by push_neg; exact ⟨hstep, hle⟩), ratFloor_eq_intFloor] at hg
  injection hg with hg
  subst hg
  have hq0 : 0 ≤ (stop - start) / step := div_nonneg (by linarith) hstep.le
  have hfl0 : 0 ≤ ⌊(stop - start) / step⌋ := Int.floor_nonneg.mpr hq0
  have hcast : ((⌊(stop - start) / step⌋.toNat : ℚ)) = (⌊(stop - start) / step⌋ : ℚ) := by
    exact_mod_cast congrArg (fun z : ℤ => (z : ℚ)) (Int.toNat_of_nonneg hfl0)
  have hmul : (stop - start) / step * step = stop - start :=
    div_mul_cancel₀ _ (ne_of_gt hstep)
  refine ⟨by simp, ?_, ?_, ?_, ?_⟩
  · intro i hi
    simp [List.get_eq_getElem]
  · intro x hx
    simp only [List.mem_map, List.mem_range] at hx
    obtain ⟨i, hi, rfl⟩ := hx
    have hile : (i : ℚ) ≤ ⌊(stop - start) / step⌋ := by
      rw [← hcast]
      exact_mod_cast Nat.lt_succ_iff.mp hi
    have h1 : (i : ℚ) ≤ (stop - start) / step := hile.trans (Int.floor_le _)
    have h2 : (i : ℚ) * step ≤ (stop - start) / step * step :=
      mul_le_mul_of_nonneg_right h1 hstep.le
    rw [hmul] at h2
    linarith
  · have hlen : (((List.range (⌊(stop - start) / step⌋.toNat + 1)).map
        fun i : ℕ => start + (i : ℚ) * step).length : ℚ)
        = (⌊(stop - start) / step⌋ : ℚ) + 1 := by
      simp [hcast]
    rw [hlen]
    have h1 : (stop - start) / step < (⌊(stop - start) / step⌋ : ℚ) + 1 :=
      Int.lt_floor_add_one _
    have h2 : (stop - start) / step * step < ((⌊(stop - start) / step⌋ : ℚ) + 1) * step :=
      mul_lt_mul_of_pos_right h1 hstep
    rw [hmul] at h2
    linarith
  · intro i hi
    simp only [List.get_eq_getElem, List.getElem_map, List.getElem_range]
    push_cast
    ring

/-- Witness for C2 at the concrete grid for `(0, 1, 1/2)`. -/
theorem time_grid_spec_witness :
    (0 : ℚ) < 1 / 2 ∧ (0 : ℚ) ≤ 1 ∧
    jd_arange 0 1 (1 / 2) = .ok [0, 1 / 2, 1] ∧
    [(0 : ℚ), 1 / 2, 1].length = ⌊((1 : ℚ) - 0) / (1 / 2)⌋.toNat + 1 ∧
    (1 : ℚ) < 0 + [(0 : ℚ), 1 / 2, 1].length * (1 / 2) := by
  have hg : jd_arange 0 1 (1 / 2) = .ok [0, 1 / 2, 1] := by
    rw [jd_arange, if_neg (by norm_num), ratFloor_eq_intFloor]
    have h : ⌊((1 : ℚ) - 0) / (1 / 2)⌋ = 2 := by norm_num
    rw [h]
    simp [List.range_succ]
  obtain ⟨h1, _, _, h4, _⟩ := time_grid_spec 0 1 (1 / 2) (by norm_num) (by norm_num) _ hg
  exact ⟨by norm_num, by norm_num, hg, h1, h4⟩

/-- C3: when two candidates for the identified object have epochs at exactly
equal absolute distance from the target time, one supplemental and the other
not, the resolver returns the non-supplemental one, whichever order the
candidates arrive in. -/
theorem resolver_tie_prefers_primary (x y : TleRecord) (sx sy : Satellite)
    (ident : String) (idCatalog : Bool) (target : ℚ)
    (hmx : matchesId idCatalog ident (x, sx) = true)
    (hmy : matchesId idCatalog ident (y, sy) = true)
    (hdist : |x.epoch - target| = |y.epoch - target|)
    (hx : x.is_supplemental = true) (hy : y.is_supplemental = false) :
    get_tle [(x, sx), (y, sy)] ident idCatalog none target = .ok (y, sy) ∧
    get_tle [(y, sy), (x, sx)] ident idCatalog none target = .ok (y, sy) := by
  have hb1 : isBetter target (y, sy) (x, sx) = true := by
    rw [isBetter, if_neg (by rw [hdist]; exact lt_irrefl _), if_pos hdist.symm]
    simp [hx, hy]
  have hb2 : isBetter target (x, sx) (y, sy) = false := by
    rw [isBetter, if_neg (by rw [hdist]; exact lt_irrefl _), if_pos hdist]
    simp [hx]
  constructor
  · simp [get_tle, matchesSource, hmx, hmy, hb1]
  · simp [get_tle, matchesSource, hmx, hmy, hb2]

/-- Witness for C3 at a concrete supplemental/primary pair equidistant from
the target time 10. -/
theorem resolver_tie_prefers_primary_witness :
    matchesId true "111" (tleSupp, satB) = true ∧
    matchesId true "111" (tlePrim, satB) = true ∧
    |tleSupp.epoch - (10 : ℚ)| = |tlePrim.epoch - (10 : ℚ)| ∧
    tleSupp.is_supplemental = true ∧
    tlePrim.is_supplemental = false ∧
    get_tle [(tleSupp, satB), (tlePrim, satB)] "111" true none 10 = .ok (tlePrim, satB) ∧
    get_tle [(tlePrim, satB), (tleSupp, satB)] "111" true none 10 = .ok (tlePrim, satB) := by
  have hm1 : matchesId true "111" (tleSupp, satB) = true := rfl
  have hm2 : matchesId true "111" (tlePrim, satB) = true := rfl
  have hdist : |tleSupp.epoch - (10 : ℚ)| = |tlePrim.epoch - (10 : ℚ)| := by
    show |(8 : ℚ) - 10| = |(12 : ℚ) - 10|
    rw [show (8 : ℚ) - 10 = -2 by norm_num, show (12 : ℚ) - 10 = 2 by norm_num, abs_neg]
  obtain ⟨hr1, hr2⟩ :=
    resolver_tie_prefers_primary tleSupp tlePrim satB satB "111" true 10 hm1 hm2 hdist rfl rfl
  exact ⟨hm1, hm2, hdist, rfl, rfl, hr1, hr2⟩

/-- C4: after a successful parse, replacing the checksum digit of either
line with any other character makes the parser fail with
`MalformedElementSetError` instead of succeeding. -/
theorem checksum_mutation_rejected (line1 line2 : String) (t : ParsedTle)
    (h : parse_tle line1 line2 = .ok t) (c d1 d2 : Char)
    (h1 : line1.toList.getLast? = some d1) (h2 : line2.toList.getLast? = some d2) :
    (c ≠ d1 → parse_tle (mutateChecksum line1 c) line2
        = .error (.malformedElementSet "Incorrect TLE format")) ∧
    (c ≠ d2 → parse_tle line1 (mutateChecksum line2 c)
        = .error (.malformedElementSet "Incorrect TLE format")) := by
  rw [parse_tle] at h
  by_cases hcond : (lineOk '1' line1.toList && lineOk '2' line2.toList
      && (catalogField line1.toList == catalogField line2.toList)) = true
  case neg =>
    rw [if_neg hcond] at h
    cases h
  rw [Bool.and_eq_true, Bool.and_eq_true] at hcond
  obtain ⟨⟨hok1, hok2⟩, _⟩ := hcond
  constructor
  · intro hne
    have hbad := lineOk_mutate_false line1.toList '1' d1 c h1 hok1 hne
    have ht : (mutateChecksum line1 c).toList = line1.toList.dropLast ++ [c] := rfl
    rw [parse_tle]
    simp only [ht, hbad, Bool.false_and, Bool.and_eq_true, false_and]
    rw [if_neg]
    simp
  · intro hne
    have hbad := lineOk_mutate_false line2.toList '2' d2 c h2 hok2 hne
    have ht : (mutateChecksum line2 c).toList = line2.toList.dropLast ++ [c] := rfl
    rw [parse_tle]
    simp only [ht, hbad, Bool.and_false, Bool.false_and]
    rw [if_neg]
    simp

/-- Witness for C4 on the concrete ISS element lines, mutating each line's
checksum digit to `0`. -/
theorem checksum_mutation_rejected_witness :
    parse_tle issLine1 issLine2 = .ok issParsed ∧
    issLine1.toList.getLast? = some '7' ∧
    issLine2.toList.getLast? = some '5' ∧
    ('0' ≠ '7') ∧
    parse_tle (mutateChecksum issLine1 '0') issLine2
      = .error (.malformedElementSet "Incorrect TLE format") ∧
    ('0' ≠ '5') ∧
    parse_tle issLine1 (mutateChecksum issLine2 '0')
      = .error (.malformedElementSet "Incorrect TLE format") := by
  have hparse : parse_tle issLine1 issLine2 = .ok issParsed := by rfl
  obtain ⟨w1, w2⟩ :=
    checksum_mutation_rejected issLine1 issLine2 issParsed hparse '0' '7' '5' rfl rfl
  exact ⟨hparse, rfl, rfl, by decide, w1 (by decide), by decide, w2 (by decide)⟩

/-- C5 counterexample: the names-from-norad-id lookup catches a repository
failure and returns Python `None` instead of propagating the error, refuting
the claim that the lookup operations never swallow a failure. -/
theorem lookup_swallows_error_counterexample :
    get_names_from_norad_id (some "25544")
      (fun _ => .error .otherExc) = .pyNone := rfl

/-- C5 amended: the assembled ephemeris batch never hides a failure — a
returned batch implies every sample propagated successfully — but the three
lookup routes catch repository failures, log them, and return `None`, with
the single exception that `get_tle_data` maps a `DataError` to an HTTP 500
abort. -/
theorem error_handling_amended :
    (∀ sid (e : PyExc) (repo : String → Except PyExc (List (String × ℚ))),
      repo sid = .error e → get_names_from_norad_id (some sid) repo = .pyNone) ∧
    (∀ nm (e : PyExc) (repo : String → Except PyExc (List (String × ℚ))),
      repo (upcase nm) = .error e → get_norad_ids_from_name (some nm) repo = .pyNone) ∧
    (∀ sid sd ed (e : PyExc)
        (repo : String → String → Option ℚ → Option ℚ → Except PyExc (List TleDataRow)),
      e ≠ .dataError → repo sid "catalog" sd ed = .error e →
      get_tle_data (some sid) (some "catalog") sd ed repo = .pyNone) ∧
    (∀ sid sd ed
        (repo : String → String → Option ℚ → Option ℚ → Except PyExc (List TleDataRow)),
      repo sid "catalog" sd ed = .error .dataError →
      get_tle_data (some sid) (some "catalog") sd ed repo = .http500 "No TLE found") ∧
    (∀ (engine : Engine) location jd l1 l2 dc nm minA maxA cat ds recs,
      propagate_and_create_json_results engine location jd l1 l2 dc nm minA maxA cat ds
        = .ok recs →
      ∀ t ∈ jd, ∃ s, engine l1 l2 t = .ok s) := by
  refine ⟨?_, ?_, ?_, ?_, ?_⟩
  · intro sid e repo hrepo
    simp [get_names_from_norad_id, hrepo]
  · intro nm e repo hrepo
    simp [get_norad_ids_from_name, pyUpper, hrepo]
  · intro sid sd ed e repo hne hrepo
    cases e with
    | dataError => exact absurd rfl hne
    | attributeError => simp [get_tle_data, hrepo]
    | otherExc => simp [get_tle_data, hrepo]
  · intro sid sd ed repo hrepo
    simp [get_tle_data, hrepo]
  · intro engine location jd l1 l2 dc nm minA maxA cat ds recs h
    exact propagate_ok_no_partial engine location jd l1 l2 dc nm minA maxA cat ds recs h

/-- Witness for the amended C5 at concrete failing repositories and one
concrete successful batch. -/
theorem error_handling_amended_witness :
    get_names_from_norad_id (some "25544")
      (fun _ => (.error .otherExc : Except PyExc (List (String × ℚ)))) = .pyNone ∧
    get_norad_ids_from_name (some "iss")
      (fun _ => (.error .otherExc : Except PyExc (List (String × ℚ)))) = .pyNone ∧
    get_tle_data (some "25544") (some "catalog") none none
      (fun _ _ _ _ => .error .otherExc) = .pyNone ∧
    get_tle_data (some "25544") (some "catalog") none none
      (fun _ _ _ _ => .error .dataError) = .http500 "No TLE found" ∧
    propagate_and_create_json_results engineOk ⟨0, 0, 0⟩ [0] issLine1 issLine2 none ""
      none none "25544" (some "user") = .ok [⟨"", "25544", some "user", none, 0, sampleZero⟩] ∧
    (∃ s, engineOk issLine1 issLine2 0 = .ok s) := by
  have hp : propagate_and_create_json_results engineOk ⟨0, 0, 0⟩ [0] issLine1 issLine2 none ""
      none none "25544" (some "user")
      = .ok [⟨"", "25544", some "user", none, 0, sampleZero⟩] := rfl
  refine ⟨error_handling_amended.1 "25544" .otherExc _ rfl,
    error_handling_amended.2.1 "iss" .otherExc _ rfl,
    error_handling_amended.2.2.1 "25544" none none .otherExc _ (by decide) rfl,
    error_handling_amended.2.2.2.1 "25544" none none _ rfl,
    hp,
    error_handling_amended.2.2.2.2 engineOk ⟨0, 0, 0⟩ [0] issLine1 issLine2 none ""
      none none "25544" (some "user") _ hp 0 (by simp)⟩

/-- C10: every record assembled by the raw-element routes carries the
constant data-source value `"user"`, whatever the engine and the other
request parameters. -/
theorem tle_routes_user_source (engine : Engine) (p : TleParams) (q : TleJdstepParams)
    (recs recs2 : List EphemerisRecord) :
    (get_ephemeris_by_tle engine p = .ok recs →
      ∀ r ∈ recs, r.data_source = some "user") ∧
    (get_ephemeris_by_tle_jdstep engine q = .ok recs2 →
      ∀ r ∈ recs2, r.data_source = some "user") := by
  constructor
  · intro h r hr
    rw [get_ephemeris_by_tle] at h
    split at h
    · cases h
    · split at h
      · cases h
      · rename_i heq
        cases h
        exact ((propagate_ok_spec _ _ _ _ _ _ _ _ _ _ _ _ heq).2 r hr).1
  · intro h r hr
    rw [get_ephemeris_by_tle_jdstep] at h
    split at h
    · cases h
    · split at h
      · cases h
      · split at h
        · cases h
        · split at h
          · cases h
          · rename_i heq
            cases h
            exact ((propagate_ok_spec _ _ _ _ _ _ _ _ _ _ _ _ heq).2 r hr).1

/-- Witness for C10 at concrete successful raw-element requests. -/
theorem tle_routes_user_source_witness :
    get_ephemeris_by_tle engineOk pTle = .ok [recUser] ∧
    recUser.data_source = some "user" ∧
    get_ephemeris_by_tle_jdstep engineOk qTle = .ok [recUser2] ∧
    recUser2.data_source = some "user" := by
  have h1 : get_ephemeris_by_tle engineOk pTle = .ok [recUser] := rfl
  have hg : jd_arange qTle.startjd qTle.stopjd (effectiveStep qTle.stepjd) = .ok [5] := by
    show jd_arange 5 5 1 = .ok [5]
    rw [jd_arange, if_neg (by norm_num)]
    have h0 : (((5 : ℚ) - 5) / 1).floor = 0 := by
      rw [sub_self, zero_div, ratFloor_eq_intFloor]
      exact Int.floor_zero
    have h1 : List.range ((0 : ℤ).toNat + 1) = [0] := rfl
    rw [h0, h1]
    simp
  have h2 : get_ephemeris_by_tle_jdstep engineOk qTle = .ok [recUser2] := by
    rw [get_ephemeris_by_tle_jdstep, hg]
    rfl
  exact ⟨h1,
    (tle_routes_user_source engineOk pTle qTle [recUser] [recUser2]).1 h1 recUser (by simp),
    h2,
    (tle_routes_user_source engineOk pTle qTle [recUser] [recUser2]).2 h2 recUser2 (by simp)⟩

end SatChecker
